import Mathlib

/-!
Verification of the document-ingestion pipeline of the financial-reporter
backend (FastAPI + Firebase + PDF extraction + Gemini summarization).

Shallow embedding of:
  * `backend/app/services/pdf_processor.py`   (PDFProcessor)
  * `backend/app/services/firebase_service.py` (FirebaseService)
  * `backend/app/api/api_v1/endpoints/reports.py` (upload / status / analyze /
    extraction endpoints and background tasks)

Python strings are modelled as Lean `String` (or `List Char` where substring
reasoning is needed), machine integers as `Nat` (byte counts never go
negative), fallible code as `Except`.  Each definition carries a comment
pointing at the source lines it embeds.
-/

namespace FinancialReporter

/-! ## JSON values

A small JSON value type standing for the Python objects produced by
`json.loads` and `PDFProcessor._generate_mock_analysis`.  JSON objects are
association lists in insertion order (Python dicts preserve insertion
order); numbers are rationals. -/

inductive Json where
  | str : String → Json
  | num : Rat → Json
  | arr : List Json → Json
  | obj : List (String × Json) → Json

/-- Membership test `key in analysis` on a Python dict. -/
def hasKey (fields : List (String × Json)) (k : String) : Bool :=
  fields.any (fun kv => kv.1 == k)

/-- Lookup `analysis[key]` on a Python dict (first binding wins, as dict keys
are unique). -/
def getKey (fields : List (String × Json)) (k : String) : Option Json :=
  (fields.find? (fun kv => kv.1 == k)).map (fun kv => kv.2)

/-- Assignment `analysis[key] = v` on a Python dict: overwrite an existing
binding in place, else append a new one (dicts keep insertion order). -/
def setKey (fields : List (String × Json)) (k : String) (v : Json) :
    List (String × Json) :=
  if hasKey fields k then
    fields.map (fun kv => if kv.1 == k then (k, v) else kv)
  else
    fields ++ [(k, v)]

/-! ## PDFProcessor._generate_mock_analysis (pdf_processor.py lines 192-253)

The deterministic fallback analysis object, transcribed field by field. -/

def mock_summary : String :=
  "This is a mock analysis of a financial document. It contains quarterly financial results with revenue growth and profit margins discussion."

def mock_key_points : Json :=
  .arr [ .str "Revenue increased by 15% year-over-year"
       , .str "Operating margin improved to 28.5%"
       , .str "New product line contributed 12% to total revenue"
       , .str "International expansion continues in Asian markets"
       , .str "Board approved $500M share repurchase program" ]

def mock_sentiment : Json :=
  .obj [ ("overall", .str "positive")
       , ("confidence", .num (85/100 : Rat))
       , ("breakdown", .obj [ ("positive", .num 65)
                            , ("neutral", .num 30)
                            , ("negative", .num 5) ]) ]

def mock_topics : Json :=
  .arr [ .obj [ ("name", .str "Revenue Growth"), ("sentiment", .str "positive"), ("mentions", .num 12) ]
       , .obj [ ("name", .str "Profit Margins"), ("sentiment", .str "positive"), ("mentions", .num 8) ]
       , .obj [ ("name", .str "Market Expansion"), ("sentiment", .str "neutral"), ("mentions", .num 6) ]
       , .obj [ ("name", .str "Supply Chain"), ("sentiment", .str "negative"), ("mentions", .num 3) ] ]

def mock_quotes : Json :=
  .arr [ .obj [ ("text", .str "Our strategic investments in technology have yielded significant returns this quarter.")
              , ("speaker", .str "CEO"), ("sentiment", .str "positive") ]
       , .obj [ ("text", .str "While supply chain challenges persist, we've implemented mitigation strategies that have reduced their impact.")
              , ("speaker", .str "COO"), ("sentiment", .str "neutral") ] ]

/-- PDFProcessor._generate_mock_analysis: the canned analysis dict. -/
def generate_mock_analysis : List (String × Json) :=
  [ ("summary", .str mock_summary)
  , ("key_points", mock_key_points)
  , ("sentiment", mock_sentiment)
  , ("topics", mock_topics)
  , ("quotes", mock_quotes) ]

/-! ## PDFProcessor._parse_ai_response (pdf_processor.py lines 157-190) -/

/-- Python `str.find(c)`: index of the first occurrence of `c`, tracked here as
an `Option` instead of the `-1` sentinel. -/
def findAux : List Char → Char → Nat → Option Nat
  | [], _, _ => none
  | c :: rest, t, i => if c == t then some i else findAux rest t (i + 1)

def str_find (s : String) (c : Char) : Option Nat :=
  findAux s.data c 0

/-- Python `str.rfind(c)`: index of the last occurrence of `c`. -/
def rfindAux : List Char → Char → Nat → Option Nat
  | [], _, _ => none
  | c :: rest, t, i =>
    match rfindAux rest t (i + 1) with
    | some j => some j
    | none => if c == t then some i else none

def str_rfind (s : String) (c : Char) : Option Nat :=
  rfindAux s.data c 0

/-- Python slice `s[a:b]` (for `a ≤ b`; clamps at the end of the string). -/
def strSlice (s : String) (a b : Nat) : String :=
  ⟨(s.data.drop a).take (b - a)⟩

def required_keys : List String :=
  ["summary", "key_points", "sentiment", "topics"]

/-- Backfill of one required key (pdf_processor.py 177-181): keys already
present are kept, a missing key is assigned the corresponding field of the
mock analysis (`analysis[key] = PDFProcessor._generate_mock_analysis()[key]`;
every required key does occur in the mock object, so the `getD` default is
never used). -/
def backfillStep (a : List (String × Json)) (k : String) : List (String × Json) :=
  if hasKey a k then a
  else setKey a k ((getKey generate_mock_analysis k).getD (.str ""))

/-- PDFProcessor._parse_ai_response.

`json_start = response_text.find('{')`, `json_end = response_text.rfind('}') + 1`;
when `json_start >= 0 and json_end > json_start` the slice is handed to
`json.loads`, modelled by the `parse` argument (the slice always starts with
`'{'`, so a successful `json.loads` yields a dict, i.e. a field list; a
`JSONDecodeError` is the `.error` case).  Missing required keys are backfilled
from the mock analysis; a failed parse or absent braces yields the whole mock
analysis.  The function is total: every exception path in the source returns
the mock object. -/
def parse_ai_response (parse : String → Except String (List (String × Json)))
    (response_text : String) : List (String × Json) :=
  match str_find response_text '{', str_rfind response_text '}' with
  | some json_start, some rb =>
    let json_end := rb + 1
    if json_start < json_end then
      match parse (strSlice response_text json_start json_end) with
      | .ok analysis => required_keys.foldl backfillStep analysis
      | .error _ => generate_mock_analysis
    else generate_mock_analysis
  | _, _ => generate_mock_analysis

/-! ## PDFProcessor.analyze_with_ai (pdf_processor.py lines 62-155)

The call-level environment: whether `GOOGLE_API_KEY` is set, and the outcome
of `model.generate_content(prompt).text` (`.error` = any exception raised by
the external model call or response access). -/

structure AiEnv where
  api_key_present : Bool
  model_response : Except String String

/-- PDFProcessor.analyze_with_ai.  Text over 30000 characters is truncated
(with an appended ellipsis) before being embedded in the prompt; a missing
API key or a model-call exception yields the mock analysis (the `except`
clause at the end of the source catches every exception and returns the
mock object, so the function is total). -/
def analyze_with_ai (env : AiEnv)
    (parse : String → Except String (List (String × Json)))
    (text : String) : List (String × Json) :=
  let _prompt_text := if text.length > 30000 then text.take 30000 ++ "..." else text
  if env.api_key_present = false then generate_mock_analysis
  else
    match env.model_response with
    | .error _ => generate_mock_analysis
    | .ok response_text => parse_ai_response parse response_text

/-! ## Batch size of the sectional path (reports.py line 643) -/

/-- Section size chosen by `process_large_pdf_in_sections`:
`section_size = min(20, max(5, num_pages // 5))`. -/
def section_size (num_pages : Nat) : Nat :=
  min 20 (max 5 (num_pages / 5))

/-- Modelled from the spec: batch size formula `max(5, min(20, total_pages / 5))`
given in §4.2 of the specification. -/
def spec_batch_size (total_pages : Nat) : Nat :=
  max 5 (min 20 (total_pages / 5))

/-! ## FirebaseService.update_report overflow chunking
(firebase_service.py lines 66-129) and FirebaseService.get_full_text
(lines 240-275)

Text is modelled as `List Char` so that slicing and reassembly are plain list
operations.  `update_report_extracted_text` models the handling of the
`extracted_text` field of an `update_report` call in the Firestore-backed
mode; `StoredText` is the resulting persisted shape (inline field, marker,
original length, and the ordered `text_chunks` subcollection). -/

def fb_chunk_size : Nat := 500000

def overflow_threshold : Nat := 900000

/-- Number of chunks: `(len(full_text) + chunk_size - 1) // chunk_size`. -/
def num_chunks (len : Nat) : Nat :=
  (len + fb_chunk_size - 1) / fb_chunk_size

/-- The chunk texts: `full_text[i*chunk_size : min((i+1)*chunk_size, len)]`
for `i in range(num_chunks)`, in `chunk_index` order. -/
def text_chunks (t : List Char) : List (List Char) :=
  (List.range (num_chunks t.length)).map
    (fun i => (t.drop (i * fb_chunk_size)).take fb_chunk_size)

structure StoredText where
  extracted_text : List Char
  text_truncated : Bool
  full_text_size : Option Nat
  chunks : List (List Char)

/-- FirebaseService.update_report on a payload whose `extracted_text` exceeds
the 900000-byte threshold: the inline field becomes
`full_text[:1000] + "... [TEXT TRUNCATED DUE TO SIZE] ..." + full_text[-1000:]`,
`text_truncated` is set, `full_text_size` records the original length, and
the full value is stored as ordered chunks; below the threshold the text is
stored inline unchanged. -/
def update_report_extracted_text (t : List Char) : StoredText :=
  if t.length > overflow_threshold then
    { extracted_text :=
        t.take 1000 ++ "... [TEXT TRUNCATED DUE TO SIZE] ...".data
          ++ t.drop (t.length - 1000)
    , text_truncated := true
    , full_text_size := some t.length
    , chunks := text_chunks t }
  else
    { extracted_text := t
    , text_truncated := false
    , full_text_size := none
    , chunks := [] }

/-- FirebaseService.get_full_text: when the `text_truncated` marker is set,
concatenate the chunks in `chunk_index` order; otherwise return the inline
`extracted_text` value. -/
def get_full_text (st : StoredText) : List Char :=
  if st.text_truncated then st.chunks.flatten else st.extracted_text

/-! ## PDF page extraction (pdf_processor.py lines 30-60, reports.py 469-565
and 617-719)

A stored PDF is modelled by the list of outcomes of `page.extract_text()`
for its pages: `.ok text` when the call returns, `.error msg` when it raises.
Text is `List Char`. -/

/-- PDFProcessor.extract_text_from_pdf: `text += page_text + "\n\n"` page by
page; the loop has no per-page handler, so the first raising page aborts the
whole extraction (the outer `except` only logs and re-raises). -/
def extract_text_from_pdf : List (Except String (List Char)) → Except String (List Char) :=
  fun pages =>
    pages.foldl
      (fun acc p =>
        match acc, p with
        | .error e, _ => .error e
        | .ok t, .ok pt => .ok (t ++ pt ++ ['\n', '\n'])
        | .ok _, .error e => .error e)
      (.ok [])

/-- The placeholder recorded for a failed page, `f"[Error extracting page {n}]"`
(`n` is the 0-based index in `extract_text_only` and the 1-based page number
in `process_large_pdf_in_sections`). -/
def page_error_placeholder (n : Nat) : List Char :=
  "[Error extracting page ".data ++ (toString n).data ++ "]".data

/-- Per-page contribution of the chunked path of `extract_text_only`
(reports.py lines 504-511): the page text plus `"\n\n"`, or the 0-based
placeholder plus `"\n\n"` when the page raises. -/
def pageTextOrPlaceholder (i : Nat) : Except String (List Char) → List Char
  | .ok t => t ++ ['\n', '\n']
  | .error _ => page_error_placeholder i ++ ['\n', '\n']

/-- Concatenated text of the chunked path of `extract_text_only`.  The source
walks pages in batches of 5 (`batch_text` accumulated per batch, then
`text += batch_text`); the two nested loops visit pages `0..num_pages-1` in
order, so the resulting text is the page-wise concatenation. -/
def chunkedExtractAux : Nat → List (Except String (List Char)) → List Char
  | _, [] => []
  | i, p :: rest => pageTextOrPlaceholder i p ++ chunkedExtractAux (i + 1) rest

/-- Per-page contribution of `process_large_pdf_in_sections`
(reports.py lines 663-682): page text plus `"\n\n"`, or the 1-based
placeholder `f"[Error extracting page {page_num+1}]\n\n"`. -/
def sectionPageText (i : Nat) : Except String (List Char) → List Char
  | .ok t => t ++ ['\n', '\n']
  | .error _ => page_error_placeholder (i + 1) ++ ['\n', '\n']

/-- Concatenated text of `process_large_pdf_in_sections`: the section loop and
inner page loop visit pages `0..num_pages-1` in order (`section_text`
accumulated per section, then `full_text += section_text`), so the text is
the page-wise concatenation. -/
def sectionExtractAux : Nat → List (Except String (List Char)) → List Char
  | _, [] => []
  | i, p :: rest => sectionPageText i p ++ sectionExtractAux (i + 1) rest

/-- Python `len(text.split())`: the number of maximal whitespace-free runs. -/
def countWordsAux : Bool → List Char → Nat
  | _, [] => 0
  | inWord, c :: rest =>
    if c.isWhitespace then countWordsAux false rest
    else (if inWord then 0 else 1) + countWordsAux true rest

def countWords (cs : List Char) : Nat := countWordsAux false cs

/-- The `text_stats` dict written by both extraction paths (reports.py lines
537-544 and 695-703): length, word count, page count and a 500-character
sample (the full text is deliberately not stored in the record). -/
structure TextStats where
  text_length : Nat
  word_count : Nat
  page_count : Nat
  text_sample : List Char
deriving DecidableEq

def mk_text_stats (text : List Char) (numPages : Nat) : TextStats :=
  { text_length := text.length
  , word_count := countWords text
  , page_count := numPages
  , text_sample := if text.length > 500 then text.take 500 ++ "...".data else text }

/-- Outcome of one extraction background task: the final record status, the
content written to the `{file_path}.txt` temp file (none when the task
failed before writing it), the stats update, and the error message recorded
on failure. -/
structure ExtractOutcome where
  status : String
  temp_text : Option (List Char)
  stats : Option TextStats
  error : Option String
deriving DecidableEq

/-- extract_text_only (reports.py lines 469-565).  `file_size_mb` is the
stored `file_size_mb` record field (the source stores `round(bytes/2^20, 2)`,
a float; only integer-MB comparisons against the 10 MB threshold matter
here).  Above 10 MB the chunked path with per-page placeholders is used; at
or below 10 MB the single-pass `PDFProcessor.extract_text_from_pdf` is used,
whose page exception propagates to the task-level handler which sets the
record to `failed` with the exception message. -/
def extract_text_only (file_size_mb : Nat)
    (pages : List (Except String (List Char))) : ExtractOutcome :=
  if file_size_mb > 10 then
    let text := chunkedExtractAux 0 pages
    { status := "extracted", temp_text := some text
    , stats := some (mk_text_stats text pages.length), error := none }
  else
    match extract_text_from_pdf pages with
    | .ok text =>
      { status := "extracted", temp_text := some text
      , stats := some (mk_text_stats text pages.length), error := none }
    | .error e =>
      { status := "failed", temp_text := none, stats := none, error := some e }

/-- process_large_pdf_in_sections (reports.py lines 617-719): walks the pages
in sections of `section_size num_pages`, recording a 1-based placeholder for
every raising page; no page failure aborts the task, so it always ends with
status `extracted`. -/
def process_large_pdf_in_sections
    (pages : List (Except String (List Char))) : ExtractOutcome :=
  let text := sectionExtractAux 0 pages
  { status := "extracted", temp_text := some text
  , stats := some (mk_text_stats text pages.length), error := none }

/-- Substring containment on character lists (`small` occurs contiguously in
`big`). -/
def containsSub (big small : List Char) : Prop :=
  ∃ pre post, big = pre ++ small ++ post

/-! ## Document records and the two stores (reports.py, firebase_service.py)

A report record is the dict created by `upload_report_pdf`; optional fields
model dict keys that may be absent.  `file_size_mb` holds the stored
megabyte figure (the source stores `round(bytes/2^20, 2)`, a float; the
model keeps the truncating integer value, which agrees on the whole-MB
thresholds the endpoints compare against).  The in-memory `REPORTS` list is
a `List Report`; the Firestore documents (or the `mock_reports` dict of the
degraded mode, which has the same per-id semantics) are a partial map from
id to record.  `disk` models the byte count of this request's
`uploads/{id}.pdf` file (`none` = absent). -/

structure Report where
  id : String
  file_name : String := ""
  upload_date : String := ""
  status : String := ""
  user_id : String := ""
  file_path : Option String := none
  progress : Option String := none
  file_size_mb : Nat := 0
  error : Option String := none
deriving DecidableEq

structure Store where
  reports : List Report
  firebase : String → Option Report
  disk : Option Nat

/-- Exceptions observable at the request boundary: an `HTTPException`
carrying a response code, or a non-HTTP Python exception (FastAPI turns the
latter into a 500 response). -/
inductive PyExc where
  | http (code : Nat) (detail : String)
  | attrError (msg : String)
deriving DecidableEq

/-- FirebaseService.save_report (set the document wholesale). -/
def fb_save (fb : String → Option Report) (rid : String) (r : Report) :
    String → Option Report :=
  fun k => if k = rid then some r else fb k

/-- FirebaseService.delete_report. -/
def fb_delete (fb : String → Option Report) (rid : String) :
    String → Option Report :=
  fun k => if k = rid then none else fb k

/-- FirebaseService.update_report (without an oversized text field): merge
the partial update into the existing document; when the document is absent
the call is a no-op returning False (mock mode logs a warning; Firestore
raises NotFound, caught and turned into False). -/
def fb_update (fb : String → Option Report) (rid : String)
    (f : Report → Report) : String → Option Report :=
  fun k => if k = rid then (fb rid).map f else fb k

/-- In-memory update `next((r for r in REPORTS if r["id"] == report_id), None)`
followed by mutating the found dict: mutate the first record with the given
id, leave the rest unchanged. -/
def mutateFirstById : List Report → String → (Report → Report) → List Report
  | [], _, _ => []
  | r :: rest, rid, f =>
    if r.id = rid then f r :: rest else r :: mutateFirstById rest rid f

/-- In-memory replacement `REPORTS[i] = report` for the first `i` with
matching id (reports.py lines 172-175). -/
def replaceFirstById : List Report → String → Report → List Report
  | [], _, _ => []
  | r :: rest, rid, newR =>
    if r.id = rid then newR :: rest else r :: replaceFirstById rest rid newR

/-- In-memory removal `REPORTS.remove(progress_report)` (reports.py line 134):
the removed object is the one appended by this request, i.e. the first
record carrying this request's fresh id. -/
def eraseFirstById : List Report → String → List Report
  | [], _ => []
  | r :: rest, rid => if r.id = rid then rest else r :: eraseFirstById rest rid

/-! ## PUT /reports/{id}/status — update_report_status (reports.py 255-304) -/

def valid_statuses : List String :=
  ["processing", "completed", "failed", "uploaded", "extracted"]

/-- Lookup used by update_report_status: Firebase first, then the in-memory
`REPORTS` list as fallback. -/
def get_report_with_fallback (st : Store) (rid : String) : Option Report :=
  match st.firebase rid with
  | some r => some r
  | none => st.reports.find? (fun r => r.id = rid)

/-- The merge applied by update_report_status to a stored record:
`{"status": status, "error": error} if error else {"status": status}`. -/
def applyStatusUpdate (statusVal : String) (error : Option String)
    (r : Report) : Report :=
  match error with
  | some e => { r with status := statusVal, error := some e }
  | none => { r with status := statusVal }

/-- update_report_status.  The `status` parameter shadows the imported
`fastapi.status` module, so both `raise HTTPException(status_code=
status.HTTP_400_BAD_REQUEST, ...)` (invalid status value) and the analogous
404 raise evaluate `"...".HTTP_400_BAD_REQUEST` on a `str` and die with
`AttributeError` instead — an unhandled non-HTTP exception (a 500 at the
request boundary), not the intended 400/404.  On success the fetched record
is mutated and returned, the Firebase document is merged, and the first
matching in-memory record is mutated. -/
def update_report_status (st : Store) (report_id : String)
    (statusVal : String) (error : Option String) :
    Except PyExc (Report × Store) :=
  if statusVal ∉ valid_statuses then
    .error (.attrError "str object has no attribute HTTP_400_BAD_REQUEST")
  else
    match get_report_with_fallback st report_id with
    | none =>
      .error (.attrError "str object has no attribute HTTP_404_NOT_FOUND")
    | some report =>
      let report := applyStatusUpdate statusVal error report
      .ok (report,
        { st with
          firebase := fb_update st.firebase report_id (applyStatusUpdate statusVal error)
          reports := mutateFirstById st.reports report_id (applyStatusUpdate statusVal error) })

/-! ## POST /reports/{id}/analyze — analyze_report (reports.py 410-467) -/

/-- Result of the analyze endpoint: the HTTP response (`.ok (id, status)` is
the success JSON body), the resulting store, and whether the
`analyze_pdf_async` background task was scheduled before returning. -/
structure AnalyzeOutcome where
  response : Except PyExc (String × String)
  store : Store
  scheduled : Bool

/-- analyze_report.  Reads the record from Firebase only; 404 when absent;
400 (`status` module not shadowed here, so these HTTPExceptions are genuine)
when the status is not `extracted`/`uploaded` or the stored file is missing.
Otherwise it schedules `analyze_pdf_async` and calls
`update_report_status(report_id, "analyzing")` — which fails, because
`"analyzing"` is not in `valid_statuses` and the resulting exception is an
`AttributeError` (see `update_report_status`); the generic `except Exception`
branch then sets the record to `failed` with that message and raises a 500. -/
def analyze_report (file_exists : String → Bool) (st : Store)
    (report_id : String) : AnalyzeOutcome :=
  match st.firebase report_id with
  | none => ⟨.error (.http 404 "Report not found"), st, false⟩
  | some report =>
    if report.status ∉ ["extracted", "uploaded"] then
      ⟨.error (.http 400
          s!"Report is not ready for analysis. Current status: {report.status}"),
        st, false⟩
    else
      match report.file_path with
      | none => ⟨.error (.http 400 "Report file not found"), st, false⟩
      | some fp =>
        if file_exists fp = false then
          ⟨.error (.http 400 "Report file not found"), st, false⟩
        else
          match update_report_status st report_id "analyzing" none with
          | .ok (_, st') => ⟨.ok (report_id, "analyzing"), st', true⟩
          | .error (.http c d) => ⟨.error (.http c d), st, true⟩
          | .error (.attrError m) =>
            match update_report_status st report_id "failed" (some m) with
            | .ok (_, st') =>
              ⟨.error (.http 500 s!"Error analyzing report: {m}"), st', true⟩
            | .error e2 => ⟨.error e2, st, true⟩

/-! ## POST /reports/upload — upload_report_pdf (reports.py 43-213)

The inbound stream is modelled by the list of chunk byte counts returned by
successive `file.read(chunk_size)` calls; the stream ends at the end of the
list or at the first empty read (`if not chunk: break`).  The chunk-read
timeout path (`except asyncio.TimeoutError: continue`) retries the read and
is invisible in this view.  Chunk contents never matter to the endpoint, so
only counts are kept. -/

/-- Python `filename.endswith('.pdf')`: an exact, case-sensitive suffix test
on the characters of the filename. -/
def str_endswith (s pat : String) : Bool :=
  pat.data.isSuffixOf s.data

def max_file_size : Nat := 100 * 1024 * 1024

def upload_chunk_size : Nat := 256 * 1024

/-- Progress persistence condition `file_size % (512 * 1024) < chunk_size`
(reports.py line 111). -/
def progressDue (file_size : Nat) : Bool :=
  file_size % (512 * 1024) < upload_chunk_size

/-- Progress string `min(99, int((file_size / max_file_size) * 100))` percent
(the float multiply-then-truncate agrees with integer division here). -/
def uploadProgressPct (file_size : Nat) : Nat :=
  min 99 (file_size * 100 / max_file_size)

/-- Writing one chunk to the open file: `buffer.write(chunk)`. -/
def uploadWriteChunk (c : Nat) (st : Store) : Store :=
  { st with disk := some (st.disk.getD 0 + c) }

/-- The ~512 KB progress persistence (reports.py 110-123): when due, write
the percentage string to the Firebase document and mutate the in-memory
`progress_report` dict (the one record carrying this request's id). -/
def uploadMaybeProgress (rid : String) (fs : Nat) (st : Store) : Store :=
  if progressDue fs then
    { st with
      firebase := fb_update st.firebase rid
        (fun r => { r with progress := some s!"{uploadProgressPct fs}%" })
      reports := mutateFirstById st.reports rid
        (fun r => { r with progress := some s!"{uploadProgressPct fs}%" }) }
  else st

/-- Oversize cleanup (reports.py 128-135): `os.remove` the partial file,
`REPORTS.remove(progress_report)`, `FirebaseService.delete_report`. -/
def uploadCleanup (rid : String) (st : Store) : Store :=
  { st with
    disk := none
    reports := eraseFirstById st.reports rid
    firebase := fb_delete st.firebase rid }

/-- The chunk-write loop of upload_report_pdf (reports.py 99-147): write the
chunk, update progress every ~512 KB in both stores, and when the
accumulated size exceeds the limit run the cleanup and raise a 413
(`f"File size exceeds {max_file_size / (1024 * 1024):.0f}MB limit"`).
Returns the total byte count on success (stream end or first empty read). -/
def uploadLoop (rid : String) : List Nat → Nat → Store → Except PyExc Nat × Store
  | [], file_size, st => (.ok file_size, st)
  | c :: rest, file_size, st =>
    if c = 0 then (.ok file_size, st)
    else
      if max_file_size < file_size + c then
        (.error (.http 413 "File size exceeds 100MB limit"),
          uploadCleanup rid
            (uploadMaybeProgress rid (file_size + c) (uploadWriteChunk c st)))
      else
        uploadLoop rid rest (file_size + c)
          (uploadMaybeProgress rid (file_size + c) (uploadWriteChunk c st))

/-- The merge applied to the Firebase document when the upload completes
(reports.py 161-178): the final report dict is passed to
`FirebaseService.update_report`, setting these keys and leaving any others
(such as the leftover `progress`) untouched. -/
def uploadFinalMerge (filename now user_id file_path : String)
    (file_size : Nat) (r : Report) : Report :=
  { r with
    file_name := filename
    upload_date := now
    status := "uploaded"
    user_id := user_id
    file_path := some file_path
    file_size_mb := file_size / (1024 * 1024) }

/-- upload_report_pdf.  `rid` is the generated `uuid4` and `now` the
`datetime.utcnow()` timestamp, both passed in as parameters.  The `.pdf`
extension check happens before the record is created and before the file is
opened; then the `uploading` record is appended to `REPORTS` and saved to
Firebase, the chunk loop runs, and on success the final record (without a
`progress` key) replaces the in-memory record while the same fields are
merged into the Firebase document (whose leftover `progress` key survives
the merge).  The response is `{"id": rid, "status": "uploaded"}`.  The
dispatch of the extraction background task (sectional for > 10 MB, plain
otherwise) does not change the state observed at return time. -/
def upload_report_pdf (rid now filename user_id : String) (chunks : List Nat)
    (st : Store) : Except PyExc (String × String) × Store :=
  if str_endswith filename ".pdf" = false then
    (.error (.http 400 "Only PDF files are allowed"), st)
  else
    let file_path := s!"uploads/{rid}.pdf"
    let progress_report : Report :=
      { id := rid, file_name := filename, upload_date := now
      , status := "uploading", user_id := user_id
      , file_path := some file_path, progress := some "0%" }
    let st :=
      { st with
        disk := some 0
        reports := st.reports ++ [progress_report]
        firebase := fb_save st.firebase rid progress_report }
    match uploadLoop rid chunks 0 st with
    | (.error e, st) => (.error e, st)
    | (.ok file_size, st) =>
      let final : Report :=
        { id := rid, file_name := filename, upload_date := now
        , status := "uploaded", user_id := user_id
        , file_path := some file_path
        , file_size_mb := file_size / (1024 * 1024) }
      (.ok (rid, "uploaded"),
        { st with
          reports := replaceFirstById st.reports rid final
          firebase := fb_update st.firebase rid
            (uploadFinalMerge filename now user_id file_path file_size) })

/-! ## Status/error writes performed by the extraction background tasks

For the error-field invariant we record, per task, the sequence of
`(status, error)` pairs the task hands to `update_report_status` or writes
through `FirebaseService.update_report` (the `text_stats` update carries
`"status": "extracted"` and no error key, recorded as `(_, none)`). -/

/-- Batch end positions of the chunked path of extract_text_only:
`min(batch_start + 5, num_pages)` for `batch_start in range(0, num_pages, 5)`. -/
def batchEnds (num_pages bsize : Nat) : List Nat :=
  (List.range ((num_pages + bsize - 1) / bsize)).map
    (fun k => min ((k + 1) * bsize) num_pages)

/-- The `(status, error)` writes of extract_text_only (reports.py 469-565):
first `("processing", "Extracting text from PDF")`; above 10 MB a progress
write after each 5-page batch and the final `extracted` stats write; at or
below 10 MB either the `extracted` stats write or, when a page raises,
`("failed", str(e))`. -/
def extract_status_updates (file_size_mb : Nat)
    (pages : List (Except String (List Char))) : List (String × Option String) :=
  ("processing", some "Extracting text from PDF") ::
  (if file_size_mb > 10 then
    ((batchEnds pages.length 5).map (fun be =>
      ("processing",
        some s!"Extracted {be} of {pages.length} pages ({min 99 (be * 100 / pages.length)}%)")))
      ++ [("extracted", none)]
  else
    match extract_text_from_pdf pages with
    | .ok _ => [("extracted", none)]
    | .error e => [("failed", some e)])

/-- Section start positions `range(0, num_pages, section_size)`. -/
def sectionStarts (num_pages size : Nat) : List Nat :=
  (List.range ((num_pages + size - 1) / size)).map (fun k => k * size)

/-- Per-page progress writes inside one section of
process_large_pdf_in_sections (reports.py 663-679): emitted only when the
page extraction succeeded, and only when
`(page_num - section_start) % 5 == 0 or page_num == section_end - 1`. -/
def section_page_updates (pages : List (Except String (List Char)))
    (num_pages start send : Nat) : List (String × Option String) :=
  (List.range (send - start)).filterMap (fun off =>
    match pages.get? (start + off) with
    | some (.ok _) =>
      if off % 5 == 0 || start + off == send - 1 then
        some ("processing",
          some s!"Extracting page {start + off + 1}/{num_pages} ({min 99 ((start + off + 1) * 100 / num_pages)}%)")
      else none
    | _ => none)

/-- The `(status, error)` writes of process_large_pdf_in_sections
(reports.py 617-719): the initial `("processing", "Breaking large PDF into
sections")`, per section a header write plus the per-page writes, and the
final `extracted` stats write. -/
def process_large_status_updates
    (pages : List (Except String (List Char))) : List (String × Option String) :=
  let n := pages.length
  let size := section_size n
  ("processing", some "Breaking large PDF into sections") ::
  ((sectionStarts n size).enum.flatMap (fun ks =>
    let start := ks.2
    let send := min (start + size) n
    ("processing",
      some s!"Processing section {ks.1 + 1} (pages {start + 1}-{send} of {n})")
      :: section_page_updates pages n start send))
  ++ [("extracted", none)]

/-- Test whether an update_report_status call succeeded. -/
def statusResultOk : Except PyExc (Report × Store) → Bool
  | .ok _ => true
  | .error _ => false

/-- Status of the returned record of an update_report_status call. -/
def statusResultStatus : Except PyExc (Report × Store) → Option String
  | .ok (r, _) => some r.status
  | .error _ => none

/-- Error field of the returned record of an update_report_status call. -/
def statusResultError : Except PyExc (Report × Store) → Option (Option String)
  | .ok (r, _) => some r.error
  | .error _ => none

/-! # Theorems -/

/-! ## C7 — sectional batch size -/

/-- C7: for every page count `total_pages ≥ 1` the batch size computed by
`process_large_pdf_in_sections`, `min(20, max(5, total_pages // 5))`, equals
the spec formula `max(5, min(20, total_pages / 5))`. -/
theorem c7_section_size_eq_spec (total_pages : Nat) (_h : 1 ≤ total_pages) :
    section_size total_pages = spec_batch_size total_pages := by
  unfold section_size spec_batch_size
  omega

theorem c7_section_size_eq_spec_witness :
    1 ≤ 37 ∧ section_size 37 = spec_batch_size 37 :=
  ⟨by decide, c7_section_size_eq_spec 37 (by decide)⟩

/-! ## C10 — case-sensitive extension check -/

/-- C10: every upload whose filename does not end in the exact lowercase
suffix `.pdf` is rejected with a 400 before any record is created or any
byte is written: the store (in-memory list, Firebase map, disk) is returned
unchanged. -/
theorem c10_non_pdf_rejected (rid now filename user_id : String)
    (chunks : List Nat) (st : Store)
    (h : str_endswith filename ".pdf" = false) :
    upload_report_pdf rid now filename user_id chunks st =
      (.error (.http 400 "Only PDF files are allowed"), st) := by
  unfold upload_report_pdf
  rw [h]
  simp

def c10_store : Store := { reports := [], firebase := fun _ => none, disk := none }

theorem c10_non_pdf_rejected_witness :
    str_endswith "REPORT.PDF" ".pdf" = false ∧
    upload_report_pdf "r0" "t0" "REPORT.PDF" "u1" [1024] c10_store =
      (.error (.http 400 "Only PDF files are allowed"), c10_store) :=
  ⟨by decide,
   c10_non_pdf_rejected "r0" "t0" "REPORT.PDF" "u1" [1024] c10_store (by decide)⟩

/-! ## C1 — POST /reports/{id}/analyze on a ready record -/

def c1_report : Report :=
  { id := "r1", status := "uploaded", file_path := some "uploads/r1.pdf" }

def c1_store : Store :=
  { reports := []
  , firebase := fun k => if k = "r1" then some c1_report else none
  , disk := none }

def c1_out : AnalyzeOutcome := analyze_report (fun _ => true) c1_store "r1"

/-- C1 (code bug): on a record with status `uploaded` whose stored file
exists, POST /reports/{id}/analyze does schedule the background task, but
it does not set the status to `analyzing` and does not return
`{id, status: "analyzing"}`: `update_report_status` rejects `"analyzing"`
(absent from its `valid_statuses`), the rejection itself raises
`AttributeError` through the shadowed `status` name, and the endpoint's
generic handler marks the record `failed` and answers 500. -/
theorem c1_analyze_marks_failed :
    c1_out.scheduled = true ∧
    c1_out.response =
      .error (.http 500
        "Error analyzing report: str object has no attribute HTTP_400_BAD_REQUEST") ∧
    (c1_out.store.firebase "r1").map Report.status = some "failed" ∧
    c1_out.response ≠ .ok ("r1", "analyzing") := by
  refine ⟨rfl, rfl, rfl, ?_⟩
  intro h
  have h' : (Except.error (PyExc.http 500
      "Error analyzing report: str object has no attribute HTTP_400_BAD_REQUEST") :
        Except PyExc (String × String))
      = Except.ok ("r1", "analyzing") := h
  exact Except.noConfusion h'

/-! ## C2 — PUT /reports/{id}/status validation -/

def c2_report : Report := { id := "r1", status := "uploaded" }

def c2_store : Store :=
  { reports := []
  , firebase := fun k => if k = "r1" then some c2_report else none
  , disk := none }

/-- C2 (code bug): on an existing record, the defined states `analyzing` and
`uploading` are rejected by PUT /reports/{id}/status (they are missing from
`valid_statuses`), and the rejection is not the documented 400: the shadowed
`status` name turns it into an `AttributeError` (a 500 at the request
boundary).  An arbitrary invalid value gets the same `AttributeError`
instead of a 400, while the five listed states do succeed. -/
theorem c2_status_validation_broken :
    update_report_status c2_store "r1" "analyzing" none =
      .error (.attrError "str object has no attribute HTTP_400_BAD_REQUEST") ∧
    update_report_status c2_store "r1" "uploading" none =
      .error (.attrError "str object has no attribute HTTP_400_BAD_REQUEST") ∧
    update_report_status c2_store "r1" "not-a-state" none =
      .error (.attrError "str object has no attribute HTTP_400_BAD_REQUEST") ∧
    statusResultOk (update_report_status c2_store "r1" "processing" none) = true ∧
    statusResultOk (update_report_status c2_store "r1" "uploaded" none) = true ∧
    statusResultOk (update_report_status c2_store "r1" "extracted" none) = true ∧
    statusResultOk (update_report_status c2_store "r1" "completed" none) = true ∧
    statusResultOk (update_report_status c2_store "r1" "failed" none) = true :=
  ⟨rfl, rfl, rfl, rfl, rfl, rfl, rfl, rfl⟩

/-! ## C3 — analyze on a record that is not ready -/

/-- C3: for every existing record whose status is not `extracted` or
`uploaded`, POST /reports/{id}/analyze fails with a 400 (the invalid-state
rejection) without scheduling the background task, and the store — in
particular the record's status — is returned unchanged. -/
theorem c3_analyze_invalid_state (file_exists : String → Bool) (st : Store)
    (report_id : String) (report : Report)
    (hget : st.firebase report_id = some report)
    (hstatus : report.status ∉ (["extracted", "uploaded"] : List String)) :
    analyze_report file_exists st report_id =
      ⟨.error (.http 400
          s!"Report is not ready for analysis. Current status: {report.status}"),
        st, false⟩ := by
  unfold analyze_report
  rw [hget]
  simp [hstatus]

def c3_report : Report :=
  { id := "r3", status := "processing", file_path := some "uploads/r3.pdf" }

def c3_store : Store :=
  { reports := []
  , firebase := fun k => if k = "r3" then some c3_report else none
  , disk := none }

theorem c3_analyze_invalid_state_witness :
    c3_store.firebase "r3" = some c3_report ∧
    c3_report.status ∉ (["extracted", "uploaded"] : List String) ∧
    analyze_report (fun _ => true) c3_store "r3" =
      ⟨.error (.http 400 "Report is not ready for analysis. Current status: processing"),
        c3_store, false⟩ :=
  ⟨rfl, by decide,
   c3_analyze_invalid_state (fun _ => true) c3_store "r3" c3_report rfl (by decide)⟩

/-! ## C6 — overflow chunking round trip -/

lemma chunks_flatten (cs : Nat) :
    ∀ (n : Nat) (t : List Char), t.length ≤ n * cs →
      ((List.range n).map (fun i => (t.drop (i * cs)).take cs)).flatten = t := by
  intro n
  induction n with
  | zero =>
    intro t ht
    simp only [Nat.zero_mul, Nat.le_zero, List.length_eq_zero] at ht
    subst ht
    simp
  | succ n ih =>
    intro t ht
    have hlen : (t.drop cs).length ≤ n * cs := by
      rw [List.length_drop]
      rw [Nat.succ_mul] at ht
      omega
    have hmap : ((fun i => (t.drop (i * cs)).take cs) ∘ Nat.succ)
        = fun i => (((t.drop cs).drop (i * cs)).take cs) := by
      funext i
      simp only [Function.comp_apply, Nat.succ_mul, List.drop_drop]
      rw [Nat.add_comm]
    rw [List.range_succ_eq_map, List.map_cons, List.map_map, List.flatten_cons,
      hmap, ih _ hlen]
    simp

/-- C6: for every text longer than the 900000-byte overflow threshold, the
chunks written by `FirebaseService.update_report` reassemble through
`get_full_text` to a string identical to the original full text. -/
theorem c6_chunk_roundtrip (t : List Char) (h : overflow_threshold < t.length) :
    get_full_text (update_report_extracted_text t) = t := by
  unfold update_report_extracted_text
  rw [if_pos h]
  unfold get_full_text
  simp only [if_pos]
  unfold text_chunks
  apply chunks_flatten
  unfold num_chunks fb_chunk_size
  have hd := Nat.div_add_mod (t.length + 500000 - 1) 500000
  have hm : (t.length + 500000 - 1) % 500000 < 500000 :=
    Nat.mod_lt _ (by norm_num)
  omega

theorem c6_chunk_roundtrip_witness :
    overflow_threshold < (List.replicate 900001 'a').length ∧
    get_full_text (update_report_extracted_text (List.replicate 900001 'a'))
      = List.replicate 900001 'a' := by
  have h : overflow_threshold < (List.replicate 900001 'a').length := by
    rw [List.length_replicate]
    norm_num [overflow_threshold]
  exact ⟨h, c6_chunk_roundtrip _ h⟩

/-! ## C4 — analyze_with_ai never fails and always yields the four keys -/

lemma hasKey_setKey_self (a : List (String × Json)) (k : String) (v : Json) :
    hasKey (setKey a k v) k = true := by
  unfold setKey
  by_cases h : hasKey a k = true
  · rw [if_pos h]
    unfold hasKey at h ⊢
    rw [List.any_map]
    rw [List.any_eq_true] at h ⊢
    obtain ⟨kv, hmem, hk⟩ := h
    refine ⟨kv, hmem, ?_⟩
    simp [Function.comp, hk]
  · rw [if_neg h]
    unfold hasKey
    rw [List.any_append]
    simp

lemma hasKey_setKey_mono (a : List (String × Json)) (k k' : String) (v : Json)
    (h : hasKey a k' = true) : hasKey (setKey a k v) k' = true := by
  unfold setKey
  by_cases hk : hasKey a k = true
  · rw [if_pos hk]
    unfold hasKey at h ⊢
    rw [List.any_map]
    rw [List.any_eq_true] at h ⊢
    obtain ⟨kv, hmem, hkv⟩ := h
    refine ⟨kv, hmem, ?_⟩
    by_cases hx : (kv.1 == k) = true
    · have : kv.1 = k := eq_of_beq hx
      simp [Function.comp, hx, ← this, hkv]
    · simp only [Function.comp_apply]
      rw [if_neg hx]
      exact hkv
  · rw [if_neg hk]
    unfold hasKey at h ⊢
    rw [List.any_append]
    simp [h]

lemma hasKey_backfillStep_self (a : List (String × Json)) (k : String) :
    hasKey (backfillStep a k) k = true := by
  unfold backfillStep
  by_cases hk : hasKey a k = true
  · rwa [if_pos hk]
  · rw [if_neg hk]
    exact hasKey_setKey_self _ _ _

lemma hasKey_backfillStep_mono (a : List (String × Json)) (k k' : String)
    (h : hasKey a k' = true) : hasKey (backfillStep a k) k' = true := by
  unfold backfillStep
  by_cases hk : hasKey a k = true
  · rwa [if_pos hk]
  · rw [if_neg hk]
    exact hasKey_setKey_mono _ _ _ _ h

lemma hasKey_foldl_of_hasKey (ks : List String) (a : List (String × Json))
    (k : String) (h : hasKey a k = true) :
    hasKey (ks.foldl backfillStep a) k = true := by
  induction ks generalizing a with
  | nil => simpa
  | cons k0 rest ih =>
    rw [List.foldl_cons]
    exact ih _ (hasKey_backfillStep_mono _ _ _ h)

lemma hasKey_foldl_backfill (ks : List String) (a : List (String × Json))
    (k : String) (hk : k ∈ ks) :
    hasKey (ks.foldl backfillStep a) k = true := by
  induction ks generalizing a with
  | nil => cases hk
  | cons k0 rest ih =>
    rw [List.foldl_cons]
    rcases List.mem_cons.mp hk with rfl | hmem
    · exact hasKey_foldl_of_hasKey rest _ _ (hasKey_backfillStep_self a k)
    · exact ih _ hmem

lemma mock_hasKey (k : String) (hk : k ∈ required_keys) :
    hasKey generate_mock_analysis k = true := by
  fin_cases hk <;> rfl

lemma parse_ai_response_hasKey (parse : String → Except String (List (String × Json)))
    (rt : String) (k : String) (hk : k ∈ required_keys) :
    hasKey (parse_ai_response parse rt) k = true := by
  unfold parse_ai_response
  cases h1 : str_find rt '{' <;> cases h2 : str_rfind rt '}'
  case none.none => exact mock_hasKey k hk
  case none.some => exact mock_hasKey k hk
  case some.none => exact mock_hasKey k hk
  case some.some a b =>
    simp only []
    split
    · cases hp : parse (strSlice rt a (b + 1))
      case error => exact mock_hasKey k hk
      case ok analysis =>
        simp only [hp]
        exact hasKey_foldl_backfill _ _ _ hk
    · exact mock_hasKey k hk

lemma parse_ai_response_error_parse (msg : String) (rt : String) :
    parse_ai_response (fun _ => .error msg) rt = generate_mock_analysis := by
  unfold parse_ai_response
  cases h1 : str_find rt '{' <;> cases h2 : str_rfind rt '}' <;> try rfl
  simp only []
  split <;> rfl

/-- C4: `analyze_with_ai` is total (the model is a plain function — every
exception path in the source is caught and returns the mock analysis), the
returned analysis always carries the four required keys
`summary`/`key_points`/`sentiment`/`topics`, and each call-level failure —
missing API key, external model error, a response without a JSON object,
or a JSON parse failure — yields the deterministic mock analysis. -/
theorem c4_analyze_with_ai_never_fails (env : AiEnv)
    (parse : String → Except String (List (String × Json))) (text : String) :
    (required_keys.all (fun k => hasKey (analyze_with_ai env parse text) k) = true) ∧
    (env.api_key_present = false →
      analyze_with_ai env parse text = generate_mock_analysis) ∧
    (∀ msg, env.model_response = .error msg →
      analyze_with_ai env parse text = generate_mock_analysis) ∧
    (∀ rt, env.api_key_present = true → env.model_response = .ok rt →
      str_find rt '{' = none →
      analyze_with_ai env parse text = generate_mock_analysis) ∧
    (∀ rt msg, env.api_key_present = true → env.model_response = .ok rt →
      parse = (fun _ => .error msg) →
      analyze_with_ai env parse text = generate_mock_analysis) := by
  refine ⟨?_, ?_, ?_, ?_, ?_⟩
  · rw [List.all_eq_true]
    intro k hk
    unfold analyze_with_ai
    cases hap : env.api_key_present
    · simpa using mock_hasKey k hk
    · cases hmr : env.model_response
      case error msg => simpa using mock_hasKey k hk
      case ok rt => simpa using parse_ai_response_hasKey parse rt k hk
  · intro h
    unfold analyze_with_ai
    rw [h]
    simp
  · intro msg h
    unfold analyze_with_ai
    rw [h]
    cases hap : env.api_key_present <;> simp
  · intro rt hap hok hfind
    unfold analyze_with_ai
    rw [hap, hok]
    show parse_ai_response parse rt = generate_mock_analysis
    unfold parse_ai_response
    rw [hfind]
  · intro rt msg hap hok hparse
    unfold analyze_with_ai
    rw [hap, hok, hparse]
    show parse_ai_response (fun _ => .error msg) rt = generate_mock_analysis
    exact parse_ai_response_error_parse msg rt

theorem c4_analyze_with_ai_never_fails_witness :
    (required_keys.all (fun k =>
      hasKey (analyze_with_ai ⟨false, .ok "resp"⟩ (fun _ => .error "bad json") "text") k)
      = true) ∧
    analyze_with_ai ⟨false, .ok "resp"⟩ (fun _ => .error "bad json") "text"
      = generate_mock_analysis ∧
    analyze_with_ai ⟨true, .error "timeout"⟩ (fun _ => .error "bad json") "text"
      = generate_mock_analysis ∧
    analyze_with_ai ⟨true, .ok "no braces here"⟩ (fun _ => .error "bad json") "text"
      = generate_mock_analysis ∧
    analyze_with_ai ⟨true, .ok "\x7bmalformed\x7d"⟩ (fun _ => .error "bad json") "text"
      = generate_mock_analysis :=
  ⟨(c4_analyze_with_ai_never_fails ⟨false, .ok "resp"⟩ (fun _ => .error "bad json") "text").1,
   (c4_analyze_with_ai_never_fails ⟨false, .ok "resp"⟩ (fun _ => .error "bad json") "text").2.1 rfl,
   (c4_analyze_with_ai_never_fails ⟨true, .error "timeout"⟩ (fun _ => .error "bad json") "text").2.2.1 "timeout" rfl,
   (c4_analyze_with_ai_never_fails ⟨true, .ok "no braces here"⟩ (fun _ => .error "bad json") "text").2.2.2.1 "no braces here" rfl rfl (by decide),
   (c4_analyze_with_ai_never_fails ⟨true, .ok "\x7bmalformed\x7d"⟩ (fun _ => .error "bad json") "text").2.2.2.2 "\x7bmalformed\x7d" "bad json" rfl rfl rfl⟩

/-! ## C5 — per-page failure handling in the extraction paths -/

/-- C5 counterexample: a document at the 10 MB threshold or below goes
through `PDFProcessor.extract_text_from_pdf`, which has no per-page
handler — a single failing page aborts the whole extraction, no placeholder
text is produced, and the task marks the report `failed` with the page
error instead of recording a placeholder. -/
theorem c5_small_file_page_failure_aborts :
    extract_text_only 1 [Except.error "page read failure"] =
      { status := "failed", temp_text := none, stats := none
      , error := some "page read failure" } := rfl

lemma containsSub_append_left (head big small : List Char)
    (h : containsSub big small) : containsSub (head ++ big) small := by
  obtain ⟨pre, post, rfl⟩ := h
  exact ⟨head ++ pre, post, by simp⟩

lemma containsSub_drop_right (big small ext : List Char)
    (h : containsSub big (small ++ ext)) : containsSub big small := by
  obtain ⟨pre, post, rfl⟩ := h
  exact ⟨pre, ext ++ post, by simp⟩

lemma chunkedExtractAux_containsSub :
    ∀ (pages : List (Except String (List Char))) (base i : Nat)
      (p : Except String (List Char)), pages[i]? = some p →
      containsSub (chunkedExtractAux base pages) (pageTextOrPlaceholder (base + i) p) := by
  intro pages
  induction pages with
  | nil => intro base i p hp; simp at hp
  | cons q rest ih =>
    intro base i p hp
    cases i with
    | zero =>
      rw [List.getElem?_cons_zero] at hp
      obtain rfl : q = p := by injection hp
      exact ⟨[], chunkedExtractAux (base + 1) rest, by simp [chunkedExtractAux]⟩
    | succ i =>
      rw [List.getElem?_cons_succ] at hp
      have h := ih (base + 1) i p hp
      have harith : base + (i + 1) = base + 1 + i := by omega
      rw [harith]
      exact containsSub_append_left _ _ _ h

lemma sectionExtractAux_containsSub :
    ∀ (pages : List (Except String (List Char))) (base i : Nat)
      (p : Except String (List Char)), pages[i]? = some p →
      containsSub (sectionExtractAux base pages) (sectionPageText (base + i) p) := by
  intro pages
  induction pages with
  | nil => intro base i p hp; simp at hp
  | cons q rest ih =>
    intro base i p hp
    cases i with
    | zero =>
      rw [List.getElem?_cons_zero] at hp
      obtain rfl : q = p := by injection hp
      exact ⟨[], sectionExtractAux (base + 1) rest, by simp [sectionExtractAux]⟩
    | succ i =>
      rw [List.getElem?_cons_succ] at hp
      have h := ih (base + 1) i p hp
      have harith : base + (i + 1) = base + 1 + i := by omega
      rw [harith]
      exact containsSub_append_left _ _ _ h

/-- C5 amended: per-page failure tolerance holds on the two batched paths
(the chunked branch of `extract_text_only`, taken for stored sizes above
10 MB, and `process_large_pdf_in_sections`, dispatched for uploads above
10 MB): a failing page contributes its placeholder text (0-based index in
the former, 1-based in the latter) to the concatenated output and the task
still completes with status `extracted`.  It does not hold at or below the
threshold (see the counterexample). -/
theorem c5_large_paths_record_placeholders (file_size_mb : Nat)
    (pages : List (Except String (List Char))) (i : Nat) (e : String)
    (hmb : 10 < file_size_mb)
    (hpage : pages[i]? = some (Except.error e)) :
    (extract_text_only file_size_mb pages).status = "extracted" ∧
    containsSub ((extract_text_only file_size_mb pages).temp_text.getD [])
      (page_error_placeholder i) ∧
    (process_large_pdf_in_sections pages).status = "extracted" ∧
    containsSub ((process_large_pdf_in_sections pages).temp_text.getD [])
      (page_error_placeholder (i + 1)) := by
  have hchunk := chunkedExtractAux_containsSub pages 0 i _ hpage
  have hsect := sectionExtractAux_containsSub pages 0 i _ hpage
  rw [Nat.zero_add] at hchunk hsect
  unfold extract_text_only
  rw [if_pos hmb]
  refine ⟨rfl, ?_, rfl, ?_⟩
  · exact containsSub_drop_right _ _ _ hchunk
  · exact containsSub_drop_right _ _ _ hsect

theorem c5_large_paths_record_placeholders_witness :
    10 < 11 ∧
    ([Except.error "boom", Except.ok "page two".data][0]? :
        Option (Except String (List Char))) = some (Except.error "boom") ∧
    (extract_text_only 11 [Except.error "boom", Except.ok "page two".data]).status
      = "extracted" ∧
    containsSub ((extract_text_only 11
        [Except.error "boom", Except.ok "page two".data]).temp_text.getD [])
      (page_error_placeholder 0) ∧
    (process_large_pdf_in_sections
        [Except.error "boom", Except.ok "page two".data]).status = "extracted" ∧
    containsSub ((process_large_pdf_in_sections
        [Except.error "boom", Except.ok "page two".data]).temp_text.getD [])
      (page_error_placeholder 1) := by
  have h := c5_large_paths_record_placeholders 11
    [Except.error "boom", Except.ok "page two".data] 0 "boom" (by decide) rfl
  exact ⟨by decide, rfl, h.1, h.2.1, h.2.2.1, h.2.2.2⟩

/-! ## C8 — oversized upload: 413, file deleted, no record left -/

lemma mutateFirstById_append (pre : List Report) (p : Report) (rid : String)
    (f : Report → Report) (hpre : ∀ r ∈ pre, r.id ≠ rid) (hp : p.id = rid) :
    mutateFirstById (pre ++ [p]) rid f = pre ++ [f p] := by
  induction pre with
  | nil => simp [mutateFirstById, hp]
  | cons r rest ih =>
    have hr : r.id ≠ rid := hpre r (List.mem_cons_self r rest)
    simp only [List.cons_append, List.append_eq, mutateFirstById, if_neg hr]
    rw [ih (fun x hx => hpre x (List.mem_cons_of_mem r hx))]

lemma eraseFirstById_append (pre : List Report) (p : Report) (rid : String)
    (hpre : ∀ r ∈ pre, r.id ≠ rid) (hp : p.id = rid) :
    eraseFirstById (pre ++ [p]) rid = pre := by
  induction pre with
  | nil => simp [eraseFirstById, hp]
  | cons r rest ih =>
    have hr : r.id ≠ rid := hpre r (List.mem_cons_self r rest)
    simp only [List.cons_append, List.append_eq, eraseFirstById, if_neg hr]
    rw [ih (fun x hx => hpre x (List.mem_cons_of_mem r hx))]

lemma uploadMaybeProgress_shape (rid : String) (fs : Nat) (st : Store)
    (pre : List Report) (p : Report) (hrep : st.reports = pre ++ [p])
    (hpre : ∀ r ∈ pre, r.id ≠ rid) (hp : p.id = rid) :
    ∃ p', (uploadMaybeProgress rid fs st).reports = pre ++ [p'] ∧ p'.id = rid := by
  unfold uploadMaybeProgress
  split
  · refine ⟨{ p with progress := some s!"{uploadProgressPct fs}%" }, ?_, hp⟩
    show mutateFirstById st.reports rid _ = _
    rw [hrep]
    exact mutateFirstById_append pre p rid _ hpre hp
  · exact ⟨p, hrep, hp⟩

lemma uploadMaybeProgress_disk (rid : String) (fs : Nat) (st : Store) :
    (uploadMaybeProgress rid fs st).disk = st.disk := by
  unfold uploadMaybeProgress
  split <;> rfl

lemma uploadCleanup_spec (rid : String) (st : Store) (pre : List Report)
    (p : Report) (hrep : st.reports = pre ++ [p])
    (hpre : ∀ r ∈ pre, r.id ≠ rid) (hp : p.id = rid) :
    (uploadCleanup rid st).disk = none ∧
      (uploadCleanup rid st).firebase rid = none ∧
      (uploadCleanup rid st).reports = pre := by
  refine ⟨rfl, ?_, ?_⟩
  · show fb_delete st.firebase rid rid = none
    unfold fb_delete
    simp
  · show eraseFirstById st.reports rid = pre
    rw [hrep]
    exact eraseFirstById_append pre p rid hpre hp

lemma uploadLoop_overflow (rid : String) :
    ∀ (chunks : List Nat) (fsize : Nat) (st : Store) (pre : List Report)
      (p : Report),
      st.reports = pre ++ [p] → (∀ r ∈ pre, r.id ≠ rid) → p.id = rid →
      (∀ c ∈ chunks, 0 < c) → fsize ≤ max_file_size →
      max_file_size < fsize + chunks.sum →
      (uploadLoop rid chunks fsize st).1 =
          .error (.http 413 "File size exceeds 100MB limit") ∧
        (uploadLoop rid chunks fsize st).2.disk = none ∧
        (uploadLoop rid chunks fsize st).2.firebase rid = none ∧
        (uploadLoop rid chunks fsize st).2.reports = pre := by
  intro chunks
  induction chunks with
  | nil =>
    intro fsize st pre p _ _ _ _ hle hsum
    simp only [List.sum_nil] at hsum
    omega
  | cons c rest ih =>
    intro fsize st pre p hrep hpre hp hpos hle hsum
    have hc : c ≠ 0 := Nat.pos_iff_ne_zero.mp (hpos c (List.mem_cons_self c rest))
    obtain ⟨p', hrep', hp'⟩ :=
      uploadMaybeProgress_shape rid (fsize + c) (uploadWriteChunk c st) pre p hrep hpre hp
    unfold uploadLoop
    rw [if_neg hc]
    by_cases hover : max_file_size < fsize + c
    · rw [if_pos hover]
      obtain ⟨hd, hf, hr⟩ :=
        uploadCleanup_spec rid (uploadMaybeProgress rid (fsize + c) (uploadWriteChunk c st))
          pre p' hrep' hpre hp'
      exact ⟨rfl, hd, hf, hr⟩
    · rw [if_neg hover]
      refine ih (fsize + c) _ pre p' hrep' hpre hp'
        (fun x hx => hpos x (List.mem_cons_of_mem c hx)) (by omega) ?_
      rw [List.sum_cons] at hsum
      omega

/-- C8: every upload whose accumulated byte count exceeds the 100 MB limit
(chunk reads are non-empty until the stream ends, and the request id is
fresh) fails with a 413, the partial file is removed from disk, and no
record for the upload remains in either the Firebase store or the
in-memory `REPORTS` list. -/
theorem c8_oversized_upload_cleanup (rid now filename user_id : String)
    (chunks : List Nat) (st : Store)
    (hext : str_endswith filename ".pdf" = true)
    (hpos : ∀ c ∈ chunks, 0 < c)
    (hsum : max_file_size < chunks.sum)
    (hfresh : ∀ r ∈ st.reports, r.id ≠ rid) :
    (upload_report_pdf rid now filename user_id chunks st).1 =
        .error (.http 413 "File size exceeds 100MB limit") ∧
      (upload_report_pdf rid now filename user_id chunks st).2.disk = none ∧
      (upload_report_pdf rid now filename user_id chunks st).2.firebase rid = none ∧
      ∀ r ∈ (upload_report_pdf rid now filename user_id chunks st).2.reports,
        r.id ≠ rid := by
  unfold upload_report_pdf
  rw [hext]
  simp only [Bool.true_eq_false, if_false]
  have hloop := uploadLoop_overflow rid chunks 0
    { st with
      disk := some 0
      reports := st.reports ++
        [{ id := rid, file_name := filename, upload_date := now
         , status := "uploading", user_id := user_id
         , file_path := some s!"uploads/{rid}.pdf", progress := some "0%" }]
      firebase := fb_save st.firebase rid
        { id := rid, file_name := filename, upload_date := now
        , status := "uploading", user_id := user_id
        , file_path := some s!"uploads/{rid}.pdf", progress := some "0%" } }
    st.reports _ rfl hfresh rfl hpos (Nat.zero_le _) (by simpa using hsum)
  rcases huL : uploadLoop rid chunks 0 _ with ⟨res, st'⟩
  rw [huL] at hloop
  obtain ⟨h1, h2, h3, h4⟩ := hloop
  simp only at h1 h2 h3 h4
  subst h1
  refine ⟨rfl, h2, h3, ?_⟩
  intro r hr
  rw [h4] at hr
  exact hfresh r hr

def c8_store : Store := { reports := [], firebase := fun _ => none, disk := none }

theorem c8_oversized_upload_cleanup_witness :
    str_endswith "big.pdf" ".pdf" = true ∧
    (∀ c ∈ ([104857601] : List Nat), 0 < c) ∧
    max_file_size < ([104857601] : List Nat).sum ∧
    (∀ r ∈ c8_store.reports, r.id ≠ "r8") ∧
    (upload_report_pdf "r8" "t0" "big.pdf" "u1" [104857601] c8_store).1 =
        .error (.http 413 "File size exceeds 100MB limit") ∧
      (upload_report_pdf "r8" "t0" "big.pdf" "u1" [104857601] c8_store).2.disk = none ∧
      (upload_report_pdf "r8" "t0" "big.pdf" "u1" [104857601] c8_store).2.firebase "r8"
        = none := by
  have h := c8_oversized_upload_cleanup "r8" "t0" "big.pdf" "u1" [104857601] c8_store
    (by decide) (by decide) (by decide) (by intro r hr; cases hr)
  exact ⟨by decide, by decide, by decide, (by intro r hr; cases hr), h.1, h.2.1, h.2.2.1⟩

/-! ## C9 — the error-field invariant -/

def c9_store0 : Store := { reports := [], firebase := fun _ => none, disk := none }

/-- The store reached by a successful 1 KB upload of `report.pdf`. -/
def c9_uploaded : Store :=
  (upload_report_pdf "r9" "t0" "report.pdf" "u1" [1024] c9_store0).2

/-- The first action of the `extract_text_only` background task on that
store: `update_report_status(report_id, "processing", "Extracting text
from PDF")` (reports.py line 480). -/
def c9_first_extract_update : Except PyExc (Report × Store) :=
  update_report_status c9_uploaded "r9" "processing" (some "Extracting text from PDF")

/-- C9 counterexample: in the reachable state right after a successful
upload, the extraction task's very first status write stores a progress
message in the `error` field while setting the status to `processing` —
so a record with a non-empty `error` and a status other than `failed` is
reachable, falsifying the invariant. -/
theorem c9_error_with_processing_reachable :
    (upload_report_pdf "r9" "t0" "report.pdf" "u1" [1024] c9_store0).1
        = .ok ("r9", "uploaded") ∧
      statusResultStatus c9_first_extract_update = some "processing" ∧
      statusResultError c9_first_extract_update
        = some (some "Extracting text from PDF") :=
  ⟨rfl, rfl, rfl⟩

lemma extract_updates_shape (file_size_mb : Nat)
    (pages : List (Except String (List Char)))
    (u : String × Option String)
    (hu : u ∈ extract_status_updates file_size_mb pages) :
    u.1 = "processing" ∨ u.1 = "failed" ∨ u.2 = none := by
  unfold extract_status_updates at hu
  rcases List.mem_cons.mp hu with rfl | hu
  · exact Or.inl rfl
  · split at hu
    · rcases List.mem_append.mp hu with hu | hu
      · obtain ⟨be, _, rfl⟩ := List.mem_map.mp hu
        exact Or.inl rfl
      · rcases List.mem_singleton.mp hu with rfl
        exact Or.inr (Or.inr rfl)
    · split at hu
      · rcases List.mem_singleton.mp hu with rfl
        exact Or.inr (Or.inr rfl)
      · rcases List.mem_singleton.mp hu with rfl
        exact Or.inr (Or.inl rfl)

lemma section_page_updates_shape (pages : List (Except String (List Char)))
    (n start send : Nat) (u : String × Option String)
    (hu : u ∈ section_page_updates pages n start send) :
    u.1 = "processing" := by
  unfold section_page_updates at hu
  obtain ⟨off, _, hf⟩ := List.mem_filterMap.mp hu
  cases hpg : pages.get? (start + off) with
  | none =>
    rw [hpg] at hf
    simp at hf
  | some pg =>
    rw [hpg] at hf
    cases pg with
    | error e => simp at hf
    | ok t =>
      simp only [] at hf
      split at hf
      · obtain rfl : _ = u := by injection hf
        rfl
      · simp at hf

lemma process_large_updates_shape (pages : List (Except String (List Char)))
    (u : String × Option String)
    (hu : u ∈ process_large_status_updates pages) :
    u.1 = "processing" ∨ u.1 = "failed" ∨ u.2 = none := by
  unfold process_large_status_updates at hu
  rcases List.mem_cons.mp hu with rfl | hu
  · exact Or.inl rfl
  · rcases List.mem_append.mp hu with hu | hu
    · obtain ⟨ks, _, hin⟩ := List.mem_flatMap.mp hu
      rcases List.mem_cons.mp hin with rfl | hin
      · exact Or.inl rfl
      · exact Or.inl (section_page_updates_shape _ _ _ _ _ hin)
    · rcases List.mem_singleton.mp hu with rfl
      exact Or.inr (Or.inr rfl)

/-- C9 amended: the invariant `error present → status = failed` does not
hold (see the counterexample); what the extraction pipeline does guarantee
is that every status write carrying an error value has status `processing`
(progress messages) or `failed` (actual failures) — across both
`extract_text_only` and `process_large_pdf_in_sections`, for every input. -/
theorem c9_amended_error_writes (file_size_mb : Nat)
    (pages : List (Except String (List Char)))
    (u : String × Option String)
    (hu : u ∈ extract_status_updates file_size_mb pages
        ++ process_large_status_updates pages)
    (herr : u.2 ≠ none) :
    u.1 = "processing" ∨ u.1 = "failed" := by
  rcases List.mem_append.mp hu with hu | hu
  · rcases extract_updates_shape file_size_mb pages u hu with h | h | h
    · exact Or.inl h
    · exact Or.inr h
    · exact absurd h herr
  · rcases process_large_updates_shape pages u hu with h | h | h
    · exact Or.inl h
    · exact Or.inr h
    · exact absurd h herr

theorem c9_amended_error_writes_witness :
    (("processing", some "Extracting text from PDF") : String × Option String) ∈
        extract_status_updates 1 [] ++ process_large_status_updates [] ∧
      (("processing", some "Extracting text from PDF") : String × Option String).2 ≠ none ∧
      ((("processing", some "Extracting text from PDF") : String × Option String).1
          = "processing" ∨
        (("processing", some "Extracting text from PDF") : String × Option String).1
          = "failed") :=
  ⟨by decide, by decide,
   c9_amended_error_writes 1 [] ("processing", some "Extracting text from PDF")
     (by decide) (by decide)⟩

end FinancialReporter
